import Mathlib

/-!
Shallow embedding of src/validate_grok_json.py: a one-file validator that
detects whether a parsed JSON object is a GLOBAL reasoning pack or a
THREAD-specific pack and checks required keys and their kinds.
-/

namespace GrokValidate

/-- JSON values as produced by the Python json loader: None, bool, int,
float, str, list, dict.  A float is carried as a mantissa and an exponent;
the validator never inspects numeric payloads, only the runtime type. -/
inductive JVal where
  | jnull
  | jbool (b : Bool)
  | jint (n : Int)
  | jfloat (m : Int) (e : Int)
  | jstr (s : String)
  | jarr (xs : List JVal)
  | jobj (fs : List (String × JVal))

/-- The Python expression type(x).__name__ on a json-loaded value. -/
def typeName : JVal → String
  | .jnull => "NoneType"
  | .jbool _ => "bool"
  | .jint _ => "int"
  | .jfloat _ _ => "float"
  | .jstr _ => "str"
  | .jarr _ => "list"
  | .jobj _ => "dict"

/-- isinstance(v, list) -/
def isList : JVal → Bool
  | .jarr _ => true
  | _ => false

/-- isinstance(v, str) -/
def isStr : JVal → Bool
  | .jstr _ => true
  | _ => false

/-- A parsed root JSON object: the Python dict, as a key-value list. -/
abbrev Doc := List (String × JVal)

/-- Python dict lookup: obj[k] when k is present, none otherwise. -/
def lookupKey : Doc → String → Option JVal
  | [], _ => none
  | (k₂, v) :: rest, k => if k₂ = k then some v else lookupKey rest k

/-- The Python test `k in obj`. -/
def hasKey (obj : Doc) (k : String) : Bool := (lookupKey obj k).isSome

def GLOBAL_REQUIRED_KEYS : List String := [
    "context_you_should_have_used",
    "thought_process_failures",
    "failure_patterns",
    "grok_strengths_and_limitations",
    "multi_llm_roles",
    "power_user_best_practices",
    "team_of_models_architecture",
    "reasoning_strategy_pack"]

def THREAD_REQUIRED_KEYS : List String := [
    "thread_name",
    "primary_goal",
    "niche_or_topic",
    "tasks_for_grok",
    "hard_constraints",
    "output_requirements",
    "priority_rules"]

/-- An apostrophe character, as it appears in the error messages. -/
def apos : String := String.singleton (Char.ofNat 39)

def missingMsg (k : String) : String := "Missing required key: " ++ k

/-- The message built at line 92 of the source (global validator). -/
def listArrayMsg (k t : String) : String :=
  "Key " ++ apos ++ k ++ apos ++ " must be a list (array), found " ++ t

/-- The message built at line 71 of the source (validate_list_field). -/
def listMsg (k t : String) : String :=
  "Key " ++ apos ++ k ++ apos ++ " must be a list, found " ++ t

/-- The message built at line 79 of the source (validate_string_field). -/
def strMsg (k t : String) : String :=
  "Key " ++ apos ++ k ++ apos ++ " must be a string, found " ++ t

def warnBothMsg : String :=
  "[WARN] JSON contains keys from both GLOBAL and THREAD schemas; " ++
    "treating as GLOBAL for validation."

def warnUnknownMsg : String :=
  "[WARN] Could not determine schema type; assuming GLOBAL."

/-- detect_mode: the returned mode string together with the warnings the
function prints to standard error. -/
def detect_mode (obj : Doc) : String × List String :=
  let has_global := GLOBAL_REQUIRED_KEYS.any (fun k => hasKey obj k)
  let has_thread := THREAD_REQUIRED_KEYS.any (fun k => hasKey obj k)
  if has_global && !has_thread then ("global", [])
  else if has_thread && !has_global then ("thread", [])
  else if has_global && has_thread then ("global", [warnBothMsg])
  else ("global", [warnUnknownMsg])

/-- validate_list_field(obj, key, errors): returns the updated errors list
(the Python function mutates the list it is passed). -/
def validate_list_field (obj : Doc) (key : String) (errors : List String) :
    List String :=
  match lookupKey obj key with
  | none => errors ++ [missingMsg key]
  | some v => if isList v then errors else errors ++ [listMsg key (typeName v)]

/-- validate_string_field(obj, key, errors). -/
def validate_string_field (obj : Doc) (key : String) (errors : List String) :
    List String :=
  match lookupKey obj key with
  | none => errors ++ [missingMsg key]
  | some v => if isStr v then errors else errors ++ [strMsg key (typeName v)]

def validate_global (obj : Doc) : List String :=
  GLOBAL_REQUIRED_KEYS.foldl (fun errors key =>
    match lookupKey obj key with
    | none => errors ++ [missingMsg key]
    | some v =>
        if isList v then errors
        else errors ++ [listArrayMsg key (typeName v)]) []

def THREAD_STRING_KEYS : List String :=
  ["thread_name", "primary_goal", "niche_or_topic"]

def THREAD_LIST_KEYS : List String :=
  ["tasks_for_grok", "hard_constraints", "output_requirements",
   "priority_rules"]

def validate_thread (obj : Doc) : List String :=
  let errs₁ := THREAD_STRING_KEYS.foldl
    (fun errors key => validate_string_field obj key errors) []
  THREAD_LIST_KEYS.foldl
    (fun errors key => validate_list_field obj key errors) errs₁

/-- The dispatch in main (lines 135-138): which validator runs for a mode. -/
def runValidator (mode : String) (obj : Doc) : List String :=
  if mode = "global" then validate_global obj else validate_thread obj

/-- The error report main computes for a document. -/
def mainErrors (obj : Doc) : List String :=
  runValidator (detect_mode obj).1 obj

/-- Python str.upper(), modelled on the character list (the mode strings
are plain ASCII). -/
def strUpper (s : String) : String := String.mk (s.data.map Char.toUpper)

/-- The two output channels of the process. -/
inductive OutStream where
  | stdout
  | stderr
deriving DecidableEq

/-- main, from the point where the root object is in hand (lines 133-146):
the lines printed, tagged with their stream, and the exit code.
Warnings from detect_mode go to standard error; the [OK] line and the
[FAIL] header with its indented bullets are printed without a file
argument, hence to standard output. -/
def mainRun (path : String) (obj : Doc) : List (OutStream × String) × Nat :=
  let mode := (detect_mode obj).1
  let warnLines := (detect_mode obj).2.map (fun w => (OutStream.stderr, w))
  let errors := runValidator mode obj
  if errors.isEmpty then
    (warnLines ++
      [(OutStream.stdout, "[OK] " ++ path ++ " is valid " ++
          strUpper mode ++ " JSON.")], 0)
  else
    (warnLines ++
      ((OutStream.stdout, "[FAIL] " ++ path ++ " failed " ++
          strUpper mode ++ " validation:") ::
        errors.map (fun e => (OutStream.stdout, "  - " ++ e))), 1)

/-- The required-key list of a detected mode. -/
def requiredKeys (mode : String) : List String :=
  if mode = "global" then GLOBAL_REQUIRED_KEYS else THREAD_REQUIRED_KEYS

/-! Helper view of the validators: the per-key error fragment each loop
iteration appends, and the concatenation of those fragments in key order. -/

/-- The common shape of one required-key check: a kind test and a
mismatch-message builder. -/
def fieldErr (check : JVal → Bool) (mk : String → String → String)
    (obj : Doc) (key : String) : List String :=
  match lookupKey obj key with
  | none => [missingMsg key]
  | some v => if check v then [] else [mk key (typeName v)]

/-- What one iteration of the global validator loop appends for a key. -/
abbrev globalKeyErr (obj : Doc) : String → List String :=
  fieldErr isList listArrayMsg obj

/-- What validate_string_field appends for a key. -/
abbrev stringKeyErr (obj : Doc) : String → List String :=
  fieldErr isStr strMsg obj

/-- What validate_list_field appends for a key. -/
abbrev listKeyErr (obj : Doc) : String → List String :=
  fieldErr isList listMsg obj

/-- Concatenation of per-key error fragments, in key order. -/
def keyReports (g : String → List String) : List String → List String
  | [] => []
  | k :: ks => g k ++ keyReports g ks

theorem foldl_keyReports (g : String → List String)
    (step : List String → String → List String)
    (hstep : ∀ acc k, step acc k = acc ++ g k) :
    ∀ (l : List String) (acc : List String),
      l.foldl step acc = acc ++ keyReports g l
  | [], acc => by simp [keyReports]
  | k :: ks, acc => by
      rw [List.foldl_cons, hstep, foldl_keyReports g step hstep ks,
        keyReports, List.append_assoc]

theorem validate_global_eq (obj : Doc) :
    validate_global obj = keyReports (globalKeyErr obj) GLOBAL_REQUIRED_KEYS := by
  have hstep : ∀ (acc : List String) (k : String),
      (fun (errors : List String) (key : String) =>
        match lookupKey obj key with
        | none => errors ++ [missingMsg key]
        | some v =>
            if isList v then errors
            else errors ++ [listArrayMsg key (typeName v)]) acc k
      = acc ++ globalKeyErr obj k := by
    intro acc k
    simp only [globalKeyErr, fieldErr]
    cases h : lookupKey obj k with
    | none => simp
    | some v => cases hv : isList v <;> simp [hv]
  unfold validate_global
  rw [foldl_keyReports (globalKeyErr obj) _ hstep]
  simp

theorem validate_string_field_eq (obj : Doc) (k : String) (acc : List String) :
    validate_string_field obj k acc = acc ++ stringKeyErr obj k := by
  simp only [validate_string_field, stringKeyErr, fieldErr]
  cases h : lookupKey obj k with
  | none => simp
  | some v => cases hv : isStr v <;> simp [hv]

theorem validate_list_field_eq (obj : Doc) (k : String) (acc : List String) :
    validate_list_field obj k acc = acc ++ listKeyErr obj k := by
  simp only [validate_list_field, listKeyErr, fieldErr]
  cases h : lookupKey obj k with
  | none => simp
  | some v => cases hv : isList v <;> simp [hv]

theorem validate_thread_eq (obj : Doc) :
    validate_thread obj =
      keyReports (stringKeyErr obj) THREAD_STRING_KEYS ++
        keyReports (listKeyErr obj) THREAD_LIST_KEYS := by
  have hstep₁ : ∀ (acc : List String) (k : String),
      (fun (errors : List String) (key : String) =>
        validate_string_field obj key errors) acc k
      = acc ++ stringKeyErr obj k := fun acc k =>
    validate_string_field_eq obj k acc
  have hstep₂ : ∀ (acc : List String) (k : String),
      (fun (errors : List String) (key : String) =>
        validate_list_field obj key errors) acc k
      = acc ++ listKeyErr obj k := fun acc k =>
    validate_list_field_eq obj k acc
  unfold validate_thread
  rw [foldl_keyReports (stringKeyErr obj) _ hstep₁,
    foldl_keyReports (listKeyErr obj) _ hstep₂]
  simp

theorem mem_keyReports {g : String → List String} {e : String} :
    ∀ {l : List String}, (e ∈ keyReports g l ↔ ∃ k, k ∈ l ∧ e ∈ g k)
  | [] => by simp [keyReports]
  | k :: ks => by
      simp [keyReports, List.mem_append, mem_keyReports (l := ks)]

theorem count_keyReports_zero (g : String → List String) (m : String) :
    ∀ l : List String, (∀ k ∈ l, (g k).count m = 0) →
      (keyReports g l).count m = 0
  | [], _ => by simp [keyReports]
  | k :: ks, h => by
      simp [keyReports, List.count_append, h k (by simp),
        count_keyReports_zero g m ks (fun x hx => h x (by simp [hx]))]

theorem count_keyReports_one (g : String → List String) (m K : String) :
    ∀ l : List String, l.Nodup → K ∈ l → (g K).count m = 1 →
      (∀ k ∈ l, k ≠ K → (g k).count m = 0) →
      (keyReports g l).count m = 1
  | [], _, hK, _, _ => by simp at hK
  | k :: ks, hnd, hK, hone, hzero => by
      rw [keyReports, List.count_append]
      rcases List.mem_cons.mp hK with rfl | hKks
      · have hz : (keyReports g ks).count m = 0 := by
          refine count_keyReports_zero g m ks (fun x hx => ?_)
          refine hzero x (by simp [hx]) (fun hxK => ?_)
          exact (List.nodup_cons.mp hnd).1 (hxK ▸ hx)
        rw [hone, hz]
      · have hkK : k ≠ K := fun h => (List.nodup_cons.mp hnd).1 (h ▸ hKks)
        rw [hzero k (by simp) hkK,
          count_keyReports_one g m K ks (List.nodup_cons.mp hnd).2 hKks hone
            (fun x hx => hzero x (by simp [hx]))]

/-! Distinctness of the error-message strings, via evaluation on the
finitely many keys and runtime type names that can occur. -/

def ALL_KEYS : List String := GLOBAL_REQUIRED_KEYS ++ THREAD_REQUIRED_KEYS

def TYPE_NAMES : List String :=
  ["NoneType", "bool", "int", "float", "str", "list", "dict"]

theorem typeName_mem (v : JVal) : typeName v ∈ TYPE_NAMES := by
  cases v <;> simp [typeName, TYPE_NAMES]

theorem missingMsg_inj_all :
    ∀ k ∈ ALL_KEYS, ∀ K ∈ ALL_KEYS, missingMsg k = missingMsg K → k = K := by
  decide

theorem missing_ne_mismatch_all :
    ∀ K ∈ ALL_KEYS, ∀ k ∈ ALL_KEYS, ∀ t ∈ TYPE_NAMES,
      missingMsg K ≠ listArrayMsg k t ∧ missingMsg K ≠ listMsg k t ∧
        missingMsg K ≠ strMsg k t := by
  decide

/-- Recovers the key named by a type-mismatch message: the characters
after the opening quote, up to the closing quote (keys never contain an
apostrophe). -/
def msgKey (s : String) : String :=
  String.mk ((s.data.drop 5).takeWhile (fun c => c ≠ Char.ofNat 39))

/-- A fragment that distinguishes the three type-mismatch message forms. -/
def msgForm (s : String) : String :=
  String.mk ((s.data.drop (5 + (msgKey s).length + 1)).take 16)

theorem msgKey_eval :
    ∀ k ∈ ALL_KEYS, ∀ t ∈ TYPE_NAMES,
      msgKey (listArrayMsg k t) = k ∧ msgKey (listMsg k t) = k ∧
        msgKey (strMsg k t) = k := by
  decide

theorem msgForm_eval :
    ∀ k ∈ ALL_KEYS, ∀ t ∈ TYPE_NAMES,
      msgForm (listArrayMsg k t) = " must be a list " ∧
        msgForm (listMsg k t) = " must be a list," ∧
        msgForm (strMsg k t) = " must be a strin" := by
  decide

theorem mismatch_inj {k K t u : String}
    (hk : k ∈ ALL_KEYS) (hK : K ∈ ALL_KEYS)
    (ht : t ∈ TYPE_NAMES) (hu : u ∈ TYPE_NAMES) :
    (listArrayMsg k t = listArrayMsg K u → k = K) ∧
    (listMsg k t = listMsg K u → k = K) ∧
    (strMsg k t = strMsg K u → k = K) ∧
    listArrayMsg k t ≠ listMsg K u ∧ listArrayMsg k t ≠ strMsg K u ∧
    listMsg k t ≠ strMsg K u := by
  obtain ⟨e₁, e₂, e₃⟩ := msgKey_eval k hk t ht
  obtain ⟨E₁, E₂, E₃⟩ := msgKey_eval K hK u hu
  obtain ⟨f₁, f₂, f₃⟩ := msgForm_eval k hk t ht
  obtain ⟨F₁, F₂, F₃⟩ := msgForm_eval K hK u hu
  refine ⟨?_, ?_, ?_, ?_, ?_, ?_⟩
  · intro h; rw [← e₁, h, E₁]
  · intro h; rw [← e₂, h, E₂]
  · intro h; rw [← e₃, h, E₃]
  · intro h
    have hf := congrArg msgForm h
    rw [f₁, F₂] at hf
    exact absurd hf (by decide)
  · intro h
    have hf := congrArg msgForm h
    rw [f₁, F₃] at hf
    exact absurd hf (by decide)
  · intro h
    have hf := congrArg msgForm h
    rw [f₂, F₃] at hf
    exact absurd hf (by decide)

theorem mem_all_of_global {k : String} (h : k ∈ GLOBAL_REQUIRED_KEYS) :
    k ∈ ALL_KEYS := List.mem_append_left _ h

theorem mem_all_of_thread {k : String} (h : k ∈ THREAD_REQUIRED_KEYS) :
    k ∈ ALL_KEYS := List.mem_append_right _ h

theorem thread_keys_split :
    THREAD_REQUIRED_KEYS = THREAD_STRING_KEYS ++ THREAD_LIST_KEYS := rfl

theorem global_keys_nodup : GLOBAL_REQUIRED_KEYS.Nodup := by decide

theorem thread_string_keys_nodup : THREAD_STRING_KEYS.Nodup := by decide

theorem thread_list_keys_nodup : THREAD_LIST_KEYS.Nodup := by decide

theorem global_thread_disjoint :
    ∀ k ∈ GLOBAL_REQUIRED_KEYS, k ∉ THREAD_REQUIRED_KEYS := by decide

theorem string_list_keys_disjoint :
    ∀ k ∈ THREAD_STRING_KEYS, k ∉ THREAD_LIST_KEYS := by decide

theorem mem_all_of_thread_string {k : String} (h : k ∈ THREAD_STRING_KEYS) :
    k ∈ ALL_KEYS := by
  refine mem_all_of_thread ?_
  rw [thread_keys_split]
  exact List.mem_append_left _ h

theorem mem_all_of_thread_list {k : String} (h : k ∈ THREAD_LIST_KEYS) :
    k ∈ ALL_KEYS := by
  refine mem_all_of_thread ?_
  rw [thread_keys_split]
  exact List.mem_append_right _ h

/-! Small facts about single-field checks. -/

theorem fieldErr_count_missing {check : JVal → Bool}
    {mk : String → String → String} {obj : Doc} {k : String}
    (h : lookupKey obj k = none) :
    (fieldErr check mk obj k).count (missingMsg k) = 1 := by
  simp [fieldErr, h]

theorem fieldErr_count_mismatch {check : JVal → Bool}
    {mk : String → String → String} {obj : Doc} {k : String} {v : JVal}
    (h : lookupKey obj k = some v) (hc : check v = false) :
    (fieldErr check mk obj k).count (mk k (typeName v)) = 1 := by
  simp [fieldErr, h, hc]

theorem fieldErr_count_zero {check : JVal → Bool}
    {mk : String → String → String} (obj : Doc) (k : String) (m : String)
    (hmiss : m ≠ missingMsg k)
    (hmis : ∀ v : JVal, m ≠ mk k (typeName v)) :
    (fieldErr check mk obj k).count m = 0 := by
  unfold fieldErr
  cases hl : lookupKey obj k with
  | none => simp [List.count_eq_zero, hmiss]
  | some v =>
      cases hv : check v
      · simp [hv, List.count_eq_zero, hmis v]
      · simp [hv]

theorem mem_fieldErr {check : JVal → Bool} {mk : String → String → String}
    {obj : Doc} {k e : String} (h : e ∈ fieldErr check mk obj k) :
    (e = missingMsg k ∧ lookupKey obj k = none) ∨
      ∃ v, lookupKey obj k = some v ∧ check v = false ∧
        e = mk k (typeName v) := by
  unfold fieldErr at h
  cases hl : lookupKey obj k with
  | none =>
      rw [hl] at h
      simp at h
      exact Or.inl ⟨h, rfl⟩
  | some v =>
      rw [hl] at h
      cases hv : check v
      · simp [hv] at h
        exact Or.inr ⟨v, rfl, hv, h⟩
      · simp [hv] at h

theorem fieldErr_length_le (check : JVal → Bool)
    (mk : String → String → String) (obj : Doc) (k : String) :
    (fieldErr check mk obj k).length ≤ 1 := by
  unfold fieldErr
  cases lookupKey obj k with
  | none => simp
  | some v => cases hv : check v <;> simp [hv]

theorem fieldErr_congr {check : JVal → Bool} {mk : String → String → String}
    {obj₁ obj₂ : Doc} {k : String}
    (h : lookupKey obj₂ k = lookupKey obj₁ k) :
    fieldErr check mk obj₂ k = fieldErr check mk obj₁ k := by
  unfold fieldErr
  rw [h]

/-! More keyReports facts. -/

theorem keyReports_eq_map (g : String → List String) (f : String → String) :
    ∀ l : List String, (∀ k ∈ l, g k = [f k]) → keyReports g l = l.map f
  | [], _ => rfl
  | k :: ks, h => by
      rw [keyReports, h k (by simp),
        keyReports_eq_map g f ks (fun x hx => h x (by simp [hx])),
        List.map_cons, List.singleton_append]

theorem keyReports_length_le (g : String → List String)
    (hg : ∀ k, (g k).length ≤ 1) :
    ∀ l : List String, (keyReports g l).length ≤ l.length
  | [] => by simp [keyReports]
  | k :: ks => by
      rw [keyReports, List.length_append, List.length_cons]
      have h₁ := hg k
      have h₂ := keyReports_length_le g hg ks
      omega

theorem keyReports_congr (g₁ g₂ : String → List String) :
    ∀ l : List String, (∀ k ∈ l, g₁ k = g₂ k) →
      keyReports g₁ l = keyReports g₂ l
  | [], _ => rfl
  | k :: ks, h => by
      rw [keyReports, keyReports, h k (by simp),
        keyReports_congr g₁ g₂ ks (fun x hx => h x (by simp [hx]))]

/-! Facts about key lookup and mode detection. -/

theorem lookupKey_some_mem :
    ∀ {obj : Doc} {k : String} {v : JVal},
      lookupKey obj k = some v → (k, v) ∈ obj
  | [], _, _, h => by simp [lookupKey] at h
  | (k₂, w) :: rest, k, v, h => by
      rw [lookupKey] at h
      by_cases hk : k₂ = k
      · rw [if_pos hk] at h
        subst hk
        simp at h
        simp [h]
      · rw [if_neg hk] at h
        exact List.mem_cons_of_mem _ (lookupKey_some_mem h)

theorem requiredKeys_global : requiredKeys "global" = GLOBAL_REQUIRED_KEYS := by
  simp [requiredKeys]

theorem requiredKeys_thread : requiredKeys "thread" = THREAD_REQUIRED_KEYS := by
  rw [requiredKeys, if_neg (by decide)]

theorem runValidator_global (obj : Doc) :
    runValidator "global" obj = validate_global obj := by
  simp [runValidator]

theorem runValidator_thread (obj : Doc) :
    runValidator "thread" obj = validate_thread obj := by
  rw [runValidator, if_neg (by decide)]

theorem detect_mode_cases (obj : Doc) :
    (detect_mode obj).1 = "global" ∨ (detect_mode obj).1 = "thread" := by
  rw [detect_mode]
  split
  · exact Or.inl rfl
  split
  · exact Or.inr rfl
  split
  · exact Or.inl rfl
  · exact Or.inl rfl

theorem mainErrors_global {obj : Doc} (h : (detect_mode obj).1 = "global") :
    mainErrors obj = validate_global obj := by
  rw [mainErrors, h, runValidator_global]

theorem mainErrors_thread {obj : Doc} (h : (detect_mode obj).1 = "thread") :
    mainErrors obj = validate_thread obj := by
  rw [mainErrors, h, runValidator_thread]

theorem list_string_keys_disjoint :
    ∀ k ∈ THREAD_LIST_KEYS, k ∉ THREAD_STRING_KEYS := by decide

/-! Count and membership lemmas for whole validator passes. -/

theorem count_keyReports_missing_of_absent
    {check : JVal → Bool} {mk : String → String → String} {obj : Doc}
    {K : String} (l : List String)
    (hnd : l.Nodup) (hl : ∀ k ∈ l, k ∈ ALL_KEYS) (hKall : K ∈ ALL_KEYS)
    (hKl : K ∈ l) (habs : lookupKey obj K = none)
    (hmk : ∀ k ∈ ALL_KEYS, ∀ t ∈ TYPE_NAMES, missingMsg K ≠ mk k t) :
    (keyReports (fieldErr check mk obj) l).count (missingMsg K) = 1 := by
  refine count_keyReports_one _ _ K l hnd hKl (fieldErr_count_missing habs) ?_
  intro k hk hne
  refine fieldErr_count_zero _ _ _ ?_ ?_
  · intro h
    exact hne (missingMsg_inj_all K hKall k (hl k hk) h).symm
  · intro v
    exact hmk k (hl k hk) (typeName v) (typeName_mem v)

theorem count_keyReports_zero_of_other
    {check : JVal → Bool} {mk : String → String → String} {obj : Doc}
    {K : String} (l : List String)
    (hl : ∀ k ∈ l, k ∈ ALL_KEYS) (hKall : K ∈ ALL_KEYS) (hKl : K ∉ l)
    (hmk : ∀ k ∈ ALL_KEYS, ∀ t ∈ TYPE_NAMES, missingMsg K ≠ mk k t) :
    (keyReports (fieldErr check mk obj) l).count (missingMsg K) = 0 := by
  refine count_keyReports_zero _ _ l (fun k hk => ?_)
  refine fieldErr_count_zero _ _ _ ?_ ?_
  · intro h
    exact hKl (by rw [missingMsg_inj_all K hKall k (hl k hk) h]; exact hk)
  · intro v
    exact hmk k (hl k hk) (typeName v) (typeName_mem v)

theorem count_keyReports_mismatch_one
    {check : JVal → Bool} {mk : String → String → String} {obj : Doc}
    {K : String} {v : JVal} (l : List String)
    (hnd : l.Nodup) (hl : ∀ k ∈ l, k ∈ ALL_KEYS) (hKl : K ∈ l)
    (hv : lookupKey obj K = some v) (hc : check v = false)
    (hinj : ∀ k ∈ ALL_KEYS, ∀ t ∈ TYPE_NAMES,
      mk K (typeName v) = mk k t → K = k)
    (hnemiss : ∀ k ∈ ALL_KEYS, mk K (typeName v) ≠ missingMsg k) :
    (keyReports (fieldErr check mk obj) l).count (mk K (typeName v)) = 1 := by
  refine count_keyReports_one _ _ K l hnd hKl
    (fieldErr_count_mismatch hv hc) ?_
  intro k hk hne
  refine fieldErr_count_zero _ _ _ (hnemiss k (hl k hk)) ?_
  intro w h
  exact hne (hinj k (hl k hk) (typeName w) (typeName_mem w) h).symm

theorem count_keyReports_mismatch_zero
    {check : JVal → Bool} {mk : String → String → String} {obj : Doc}
    (l : List String) (m : String)
    (hl : ∀ k ∈ l, k ∈ ALL_KEYS)
    (hnemiss : ∀ k ∈ ALL_KEYS, m ≠ missingMsg k)
    (hnemk : ∀ k ∈ ALL_KEYS, ∀ t ∈ TYPE_NAMES, m ≠ mk k t) :
    (keyReports (fieldErr check mk obj) l).count m = 0 :=
  count_keyReports_zero _ _ l (fun k hk =>
    fieldErr_count_zero _ _ _ (hnemiss k (hl k hk))
      (fun w => hnemk k (hl k hk) (typeName w) (typeName_mem w)))

theorem not_mem_keyReports_fieldErr
    {check : JVal → Bool} {mk : String → String → String} {obj : Doc}
    (l : List String) (m : String)
    (hnomiss : ∀ k ∈ l, lookupKey obj k = none → m ≠ missingMsg k)
    (hnomis : ∀ k ∈ l, ∀ v : JVal, lookupKey obj k = some v →
      check v = false → m ≠ mk k (typeName v)) :
    m ∉ keyReports (fieldErr check mk obj) l := by
  intro hmem
  obtain ⟨k, hk, hek⟩ := mem_keyReports.mp hmem
  rcases mem_fieldErr hek with ⟨he, hn⟩ | ⟨v, hv, hc, he⟩
  · exact hnomiss k hk hn he
  · exact hnomis k hk v hv hc he

theorem not_mem_append_of {α : Type} {m : α} {a b : List α}
    (h₁ : m ∉ a) (h₂ : m ∉ b) : m ∉ a ++ b := fun hm =>
  (List.mem_append.mp hm).elim h₁ h₂

/-! Concrete documents used to instantiate the theorems below. -/

/-- A document with one GLOBAL key and one THREAD key. -/
def exBothDoc : Doc :=
  [("failure_patterns", JVal.jarr []), ("thread_name", JVal.jstr "x")]

/-- A thread-mode document whose tasks_for_grok value is a string. -/
def exC2Doc : Doc := [("tasks_for_grok", JVal.jstr "x")]

/-- A thread-mode document that fails validation. -/
def exC3Doc : Doc := [("thread_name", JVal.jint 0)]

/-- The concrete thread document of the specification scenario. -/
def exThreadDoc : Doc :=
  [("thread_name", JVal.jstr "X"), ("primary_goal", JVal.jstr "Y"),
   ("niche_or_topic", JVal.jstr "Z"), ("tasks_for_grok", JVal.jarr []),
   ("hard_constraints", JVal.jarr []), ("output_requirements", JVal.jarr []),
   ("priority_rules", JVal.jarr [])]

/-- A document with none of the fifteen recognized keys. -/
def exJunkDoc : Doc := [("unrecognized_key", JVal.jint 1)]

/-- Two documents with equal key sets but different order and values. -/
def exKeysA : Doc :=
  [("thread_name", JVal.jstr "a"), ("primary_goal", JVal.jint 3)]

def exKeysB : Doc :=
  [("primary_goal", JVal.jarr []), ("thread_name", JVal.jnull)]

/-- A global-mode document with one GLOBAL key bound to a string. -/
def exGlobalStrDoc : Doc := [("failure_patterns", JVal.jstr "oops")]

/-- A thread-mode document, and the same with an unrecognized key added. -/
def exNoiseBase : Doc := [("thread_name", JVal.jint 5)]

def exNoiseMore : Doc :=
  [("unrecognized_key", JVal.jarr []), ("thread_name", JVal.jint 5)]

/-- C1: a document whose key set meets both the GLOBAL and the THREAD
required-key lists is detected as mode "global", and main validates it
with validate_global only (validate_thread is not applied). -/
theorem C1_both_key_sets_global (obj : Doc)
    (hg : GLOBAL_REQUIRED_KEYS.any (fun k => hasKey obj k) = true)
    (ht : THREAD_REQUIRED_KEYS.any (fun k => hasKey obj k) = true) :
    (detect_mode obj).1 = "global" ∧ mainErrors obj = validate_global obj := by
  have hd : (detect_mode obj).1 = "global" := by
    simp [detect_mode, hg, ht]
  exact ⟨hd, by rw [mainErrors, hd, runValidator_global]⟩

theorem C1_witness :
    (detect_mode exBothDoc).1 = "global" ∧
      mainErrors exBothDoc = validate_global exBothDoc :=
  C1_both_key_sets_global exBothDoc (by decide) (by decide)

/-- C9: detect_mode is a pure function of the key set: two documents with
the same keys present get the same detection result, whatever their values
and whatever the insertion order. -/
theorem C9_detect_mode_pure (o₁ o₂ : Doc)
    (h : ∀ k, hasKey o₁ k = hasKey o₂ k) :
    detect_mode o₁ = detect_mode o₂ := by
  have hg : GLOBAL_REQUIRED_KEYS.any (fun k => hasKey o₁ k)
      = GLOBAL_REQUIRED_KEYS.any (fun k => hasKey o₂ k) := by
    simp only [h]
  have ht : THREAD_REQUIRED_KEYS.any (fun k => hasKey o₁ k)
      = THREAD_REQUIRED_KEYS.any (fun k => hasKey o₂ k) := by
    simp only [h]
  simp only [detect_mode]
  rw [hg, ht]

theorem C9_witness : detect_mode exKeysA = detect_mode exKeysB :=
  C9_detect_mode_pure exKeysA exKeysB (by
    intro k
    by_cases h₁ : "thread_name" = k <;> by_cases h₂ : "primary_goal" = k <;>
      simp [exKeysA, exKeysB, hasKey, lookupKey, h₁, h₂])

/-- C5: a document with none of the fifteen recognized keys is detected as
mode "global" with the undetermined-schema warning, and the global
validator reports every one of the eight GLOBAL keys as missing. -/
theorem C5_no_recognized_keys (obj : Doc)
    (hg : ∀ k ∈ GLOBAL_REQUIRED_KEYS, lookupKey obj k = none)
    (ht : ∀ k ∈ THREAD_REQUIRED_KEYS, lookupKey obj k = none) :
    detect_mode obj = ("global", [warnUnknownMsg]) ∧
      mainErrors obj = GLOBAL_REQUIRED_KEYS.map missingMsg := by
  have hga : GLOBAL_REQUIRED_KEYS.any (fun k => hasKey obj k) = false := by
    rw [Bool.eq_false_iff]
    intro hc
    obtain ⟨k, hk, hkk⟩ := List.any_eq_true.mp hc
    rw [hasKey, hg k hk] at hkk
    simp at hkk
  have hta : THREAD_REQUIRED_KEYS.any (fun k => hasKey obj k) = false := by
    rw [Bool.eq_false_iff]
    intro hc
    obtain ⟨k, hk, hkk⟩ := List.any_eq_true.mp hc
    rw [hasKey, ht k hk] at hkk
    simp at hkk
  have hd : detect_mode obj = ("global", [warnUnknownMsg]) := by
    simp [detect_mode, hga, hta]
  refine ⟨hd, ?_⟩
  have hm : (detect_mode obj).1 = "global" := by rw [hd]
  rw [mainErrors_global hm, validate_global_eq]
  exact keyReports_eq_map _ _ _ (fun k hk => by
    simp [globalKeyErr, fieldErr, hg k hk])

theorem C5_witness :
    detect_mode exJunkDoc = ("global", [warnUnknownMsg]) ∧
      mainErrors exJunkDoc = GLOBAL_REQUIRED_KEYS.map missingMsg :=
  C5_no_recognized_keys exJunkDoc
    (by intro k hk; fin_cases hk <;> rfl)
    (by intro k hk; fin_cases hk <;> rfl)

/-- C2 as stated is false on the code: the counterexample document is in
thread mode with tasks_for_grok bound to a string, and the report carries
the message without "(array)", not the global-validator wording with
"(array)". -/
theorem C2_counterexample :
    (detect_mode exC2Doc).1 = "thread" ∧
      listArrayMsg "tasks_for_grok" "str" ∉ validate_thread exC2Doc ∧
      listMsg "tasks_for_grok" "str" ∈ validate_thread exC2Doc := by
  decide

/-- C2 amended: for a Group B list field present with a non-list value, the
thread validator appends the message "Key k must be a list, found t"
(no "(array)": that wording is exclusive to the global validator). -/
theorem C2_amended_thread_list_message (obj : Doc) (k : String) (v : JVal)
    (hk : k ∈ THREAD_LIST_KEYS) (hv : lookupKey obj k = some v)
    (hnl : isList v = false) :
    listMsg k (typeName v) ∈ validate_thread obj := by
  rw [validate_thread_eq]
  refine List.mem_append_right _ (mem_keyReports.mpr ⟨k, hk, ?_⟩)
  simp [listKeyErr, fieldErr, hv, hnl]

theorem C2_amended_witness :
    listMsg "tasks_for_grok" (typeName (JVal.jstr "x")) ∈
      validate_thread exC2Doc :=
  C2_amended_thread_list_message exC2Doc "tasks_for_grok" (JVal.jstr "x")
    (by decide) rfl rfl

/-- C3 as stated is false on the code: on a failing run the [FAIL] header
and the error bullets are printed to standard output (every printed line
of this run is on stdout, none on stderr), while the claim puts them on
standard error. -/
theorem C3_counterexample :
    mainRun "f.json" exC3Doc =
      ([(OutStream.stdout, "[FAIL] f.json failed THREAD validation:"),
        (OutStream.stdout, "  - " ++ strMsg "thread_name" "int"),
        (OutStream.stdout, "  - " ++ missingMsg "primary_goal"),
        (OutStream.stdout, "  - " ++ missingMsg "niche_or_topic"),
        (OutStream.stdout, "  - " ++ missingMsg "tasks_for_grok"),
        (OutStream.stdout, "  - " ++ missingMsg "hard_constraints"),
        (OutStream.stdout, "  - " ++ missingMsg "output_requirements"),
        (OutStream.stdout, "  - " ++ missingMsg "priority_rules")], 1) ∧
      ∀ p ∈ (mainRun "f.json" exC3Doc).1, p.1 = OutStream.stdout :=
  ⟨by rfl, by decide⟩

/-- C3 amended: the [OK] line, the [FAIL] header and the indented bullets
all go to standard output; only the detect_mode warnings go to standard
error. -/
theorem C3_amended_streams (path : String) (obj : Doc) :
    ∃ report : List String,
      (mainRun path obj).1 =
        (detect_mode obj).2.map (fun w => (OutStream.stderr, w)) ++
          report.map (fun s => (OutStream.stdout, s)) := by
  by_cases h : (runValidator (detect_mode obj).1 obj).isEmpty
  · refine ⟨["[OK] " ++ path ++ " is valid " ++
      strUpper (detect_mode obj).1 ++ " JSON."], ?_⟩
    simp [mainRun, h]
  · refine ⟨("[FAIL] " ++ path ++ " failed " ++
        strUpper (detect_mode obj).1 ++ " validation:") ::
      (runValidator (detect_mode obj).1 obj).map (fun e => "  - " ++ e), ?_⟩
    simp [mainRun, h, List.map_map]

/-- C4: a document whose keys are exactly the seven THREAD keys, the three
string fields bound to strings and the four list fields bound to lists, is
detected as mode "thread", validates with an empty report, and exits 0. -/
theorem C4_exact_thread_doc_valid (path : String) (obj : Doc)
    (hkeys : ∀ p ∈ obj, p.1 ∈ THREAD_REQUIRED_KEYS)
    (h₁ : ∃ s, lookupKey obj "thread_name" = some (JVal.jstr s))
    (h₂ : ∃ s, lookupKey obj "primary_goal" = some (JVal.jstr s))
    (h₃ : ∃ s, lookupKey obj "niche_or_topic" = some (JVal.jstr s))
    (h₄ : ∃ l, lookupKey obj "tasks_for_grok" = some (JVal.jarr l))
    (h₅ : ∃ l, lookupKey obj "hard_constraints" = some (JVal.jarr l))
    (h₆ : ∃ l, lookupKey obj "output_requirements" = some (JVal.jarr l))
    (h₇ : ∃ l, lookupKey obj "priority_rules" = some (JVal.jarr l)) :
    (detect_mode obj).1 = "thread" ∧ mainErrors obj = [] ∧
      (mainRun path obj).2 = 0 := by
  have hga : GLOBAL_REQUIRED_KEYS.any (fun k => hasKey obj k) = false := by
    rw [Bool.eq_false_iff]
    intro hc
    obtain ⟨k, hk, hkk⟩ := List.any_eq_true.mp hc
    rw [hasKey] at hkk
    obtain ⟨v, hv⟩ := Option.isSome_iff_exists.mp hkk
    exact global_thread_disjoint k hk (hkeys (k, v) (lookupKey_some_mem hv))
  have hta : THREAD_REQUIRED_KEYS.any (fun k => hasKey obj k) = true := by
    refine List.any_eq_true.mpr ⟨"thread_name", by decide, ?_⟩
    obtain ⟨s, hs⟩ := h₁
    simp [hasKey, hs]
  have hd : (detect_mode obj).1 = "thread" := by
    simp [detect_mode, hga, hta]
  have e₁ : stringKeyErr obj "thread_name" = [] := by
    obtain ⟨s, hs⟩ := h₁; simp [stringKeyErr, fieldErr, hs, isStr]
  have e₂ : stringKeyErr obj "primary_goal" = [] := by
    obtain ⟨s, hs⟩ := h₂; simp [stringKeyErr, fieldErr, hs, isStr]
  have e₃ : stringKeyErr obj "niche_or_topic" = [] := by
    obtain ⟨s, hs⟩ := h₃; simp [stringKeyErr, fieldErr, hs, isStr]
  have e₄ : listKeyErr obj "tasks_for_grok" = [] := by
    obtain ⟨l, hl⟩ := h₄; simp [listKeyErr, fieldErr, hl, isList]
  have e₅ : listKeyErr obj "hard_constraints" = [] := by
    obtain ⟨l, hl⟩ := h₅; simp [listKeyErr, fieldErr, hl, isList]
  have e₆ : listKeyErr obj "output_requirements" = [] := by
    obtain ⟨l, hl⟩ := h₆; simp [listKeyErr, fieldErr, hl, isList]
  have e₇ : listKeyErr obj "priority_rules" = [] := by
    obtain ⟨l, hl⟩ := h₇; simp [listKeyErr, fieldErr, hl, isList]
  have herr : mainErrors obj = [] := by
    rw [mainErrors_thread hd, validate_thread_eq]
    simp [THREAD_STRING_KEYS, THREAD_LIST_KEYS, keyReports,
      e₁, e₂, e₃, e₄, e₅, e₆, e₇]
  have herr₂ : runValidator (detect_mode obj).1 obj = [] := herr
  exact ⟨hd, herr, by simp [mainRun, herr₂]⟩

theorem C4_witness :
    (detect_mode exThreadDoc).1 = "thread" ∧ mainErrors exThreadDoc = [] ∧
      (mainRun "thread.json" exThreadDoc).2 = 0 :=
  C4_exact_thread_doc_valid "thread.json" exThreadDoc (by decide)
    ⟨"X", rfl⟩ ⟨"Y", rfl⟩ ⟨"Z", rfl⟩ ⟨[], rfl⟩ ⟨[], rfl⟩ ⟨[], rfl⟩ ⟨[], rfl⟩

/-- C8: no early exit, and declaration order: validate_global is the
concatenation, in declaration order, of one per-key fragment of length at
most one for each of the eight GLOBAL keys (so at most eight entries), and
validate_thread likewise, the three string fields first and then the four
list fields (so at most seven entries). -/
theorem C8_no_early_exit_order (obj : Doc) :
    validate_global obj = keyReports (globalKeyErr obj) GLOBAL_REQUIRED_KEYS ∧
      (∀ k : String, (globalKeyErr obj k).length ≤ 1 ∧
        (stringKeyErr obj k).length ≤ 1 ∧ (listKeyErr obj k).length ≤ 1) ∧
      (validate_global obj).length ≤ 8 ∧
      validate_thread obj =
        keyReports (stringKeyErr obj) THREAD_STRING_KEYS ++
          keyReports (listKeyErr obj) THREAD_LIST_KEYS ∧
      (validate_thread obj).length ≤ 7 := by
  refine ⟨validate_global_eq obj, ?_, ?_, validate_thread_eq obj, ?_⟩
  · intro k
    exact ⟨fieldErr_length_le _ _ _ _, fieldErr_length_le _ _ _ _,
      fieldErr_length_le _ _ _ _⟩
  · rw [validate_global_eq]
    have h := keyReports_length_le (globalKeyErr obj)
      (fun k => fieldErr_length_le _ _ _ _) GLOBAL_REQUIRED_KEYS
    have e : GLOBAL_REQUIRED_KEYS.length = 8 := rfl
    omega
  · rw [validate_thread_eq, List.length_append]
    have h₁ := keyReports_length_le (stringKeyErr obj)
      (fun k => fieldErr_length_le _ _ _ _) THREAD_STRING_KEYS
    have h₂ := keyReports_length_le (listKeyErr obj)
      (fun k => fieldErr_length_le _ _ _ _) THREAD_LIST_KEYS
    have e₁ : THREAD_STRING_KEYS.length = 3 := rfl
    have e₂ : THREAD_LIST_KEYS.length = 4 := rfl
    omega

/-- C10: every report entry is a missing-key or type-mismatch message for
some key of the required list of the detected mode, and the validator that runs
for the detected mode reads only the required keys: documents agreeing on
those lookups get identical reports, whatever other keys hold. -/
theorem C10_entries_only_required_keys (obj : Doc) :
    (∀ e ∈ mainErrors obj, ∃ k, k ∈ requiredKeys (detect_mode obj).1 ∧
      (e = missingMsg k ∨ ∃ v : JVal, e = listArrayMsg k (typeName v) ∨
        e = listMsg k (typeName v) ∨ e = strMsg k (typeName v))) ∧
    (∀ obj₂ : Doc,
      (∀ k ∈ requiredKeys (detect_mode obj).1,
        lookupKey obj₂ k = lookupKey obj k) →
      runValidator (detect_mode obj).1 obj₂ =
        runValidator (detect_mode obj).1 obj) := by
  rcases detect_mode_cases obj with hm | hm <;> rw [hm]
  · rw [requiredKeys_global]
    constructor
    · intro e he
      rw [mainErrors_global hm, validate_global_eq] at he
      obtain ⟨k, hk, hek⟩ := mem_keyReports.mp he
      refine ⟨k, hk, ?_⟩
      rcases mem_fieldErr hek with ⟨he', _⟩ | ⟨v, _, _, he'⟩
      · exact Or.inl he'
      · exact Or.inr ⟨v, Or.inl he'⟩
    · intro obj₂ hagree
      rw [runValidator_global, runValidator_global,
        validate_global_eq, validate_global_eq]
      exact keyReports_congr _ _ _ (fun k hk => fieldErr_congr (hagree k hk))
  · rw [requiredKeys_thread]
    constructor
    · intro e he
      rw [mainErrors_thread hm, validate_thread_eq] at he
      rcases List.mem_append.mp he with h | h
      · obtain ⟨k, hk, hek⟩ := mem_keyReports.mp h
        refine ⟨k, by rw [thread_keys_split]; exact List.mem_append_left _ hk,
          ?_⟩
        rcases mem_fieldErr hek with ⟨he', _⟩ | ⟨v, _, _, he'⟩
        · exact Or.inl he'
        · exact Or.inr ⟨v, Or.inr (Or.inr he')⟩
      · obtain ⟨k, hk, hek⟩ := mem_keyReports.mp h
        refine ⟨k, by rw [thread_keys_split]; exact List.mem_append_right _ hk,
          ?_⟩
        rcases mem_fieldErr hek with ⟨he', _⟩ | ⟨v, _, _, he'⟩
        · exact Or.inl he'
        · exact Or.inr ⟨v, Or.inr (Or.inl he')⟩
    · intro obj₂ hagree
      rw [runValidator_thread, runValidator_thread,
        validate_thread_eq, validate_thread_eq]
      have hs : ∀ k ∈ THREAD_STRING_KEYS,
          lookupKey obj₂ k = lookupKey obj k := fun k hk =>
        hagree k (by rw [thread_keys_split]; exact List.mem_append_left _ hk)
      have hl : ∀ k ∈ THREAD_LIST_KEYS,
          lookupKey obj₂ k = lookupKey obj k := fun k hk =>
        hagree k (by rw [thread_keys_split]; exact List.mem_append_right _ hk)
      have hA : keyReports (stringKeyErr obj₂) THREAD_STRING_KEYS =
          keyReports (stringKeyErr obj) THREAD_STRING_KEYS :=
        keyReports_congr _ _ _ (fun k hk => fieldErr_congr (hs k hk))
      have hB : keyReports (listKeyErr obj₂) THREAD_LIST_KEYS =
          keyReports (listKeyErr obj) THREAD_LIST_KEYS :=
        keyReports_congr _ _ _ (fun k hk => fieldErr_congr (hl k hk))
      rw [hA, hB]

theorem C10_witness :
    runValidator (detect_mode exNoiseBase).1 exNoiseMore =
      runValidator (detect_mode exNoiseBase).1 exNoiseBase :=
  (C10_entries_only_required_keys exNoiseBase).2 exNoiseMore (by
    intro k hk
    have e : requiredKeys (detect_mode exNoiseBase).1 = THREAD_REQUIRED_KEYS :=
      by decide
    rw [e] at hk
    fin_cases hk <;> rfl)

/-- C6: if a required key K of the detected schema is absent from the
document, the report carries exactly one missing-key entry for K and no
type-mismatch entry naming K. -/
theorem C6_absent_key_single_missing (obj : Doc) (K : String)
    (hK : K ∈ requiredKeys (detect_mode obj).1)
    (habs : lookupKey obj K = none) :
    (mainErrors obj).count (missingMsg K) = 1 ∧
      ∀ v : JVal, listArrayMsg K (typeName v) ∉ mainErrors obj ∧
        listMsg K (typeName v) ∉ mainErrors obj ∧
        strMsg K (typeName v) ∉ mainErrors obj := by
  rcases detect_mode_cases obj with hm | hm
  · rw [hm, requiredKeys_global] at hK
    have hKall := mem_all_of_global hK
    constructor
    · rw [mainErrors_global hm, validate_global_eq]
      exact count_keyReports_missing_of_absent GLOBAL_REQUIRED_KEYS
        global_keys_nodup (fun k hk => mem_all_of_global hk) hKall hK habs
        (fun k hk t ht => (missing_ne_mismatch_all K hKall k hk t ht).1)
    · intro v
      have htv := typeName_mem v
      rw [mainErrors_global hm, validate_global_eq]
      refine ⟨?_, ?_, ?_⟩
      · refine not_mem_keyReports_fieldErr _ _ ?_ ?_
        · intro k hk hn h
          exact (missing_ne_mismatch_all k (mem_all_of_global hk) K hKall
            (typeName v) htv).1 h.symm
        · intro k hk w hw hc h
          have hKk := (mismatch_inj hKall (mem_all_of_global hk) htv
            (typeName_mem w)).1 h
          rw [← hKk, habs] at hw
          exact Option.noConfusion hw
      · refine not_mem_keyReports_fieldErr _ _ ?_ ?_
        · intro k hk hn h
          exact (missing_ne_mismatch_all k (mem_all_of_global hk) K hKall
            (typeName v) htv).2.1 h.symm
        · intro k hk w hw hc h
          exact (mismatch_inj (mem_all_of_global hk) hKall
            (typeName_mem w) htv).2.2.2.1 h.symm
      · refine not_mem_keyReports_fieldErr _ _ ?_ ?_
        · intro k hk hn h
          exact (missing_ne_mismatch_all k (mem_all_of_global hk) K hKall
            (typeName v) htv).2.2 h.symm
        · intro k hk w hw hc h
          exact (mismatch_inj (mem_all_of_global hk) hKall
            (typeName_mem w) htv).2.2.2.2.1 h.symm
  · rw [hm, requiredKeys_thread] at hK
    have hKall := mem_all_of_thread hK
    rw [thread_keys_split] at hK
    constructor
    · rw [mainErrors_thread hm, validate_thread_eq, List.count_append]
      rcases List.mem_append.mp hK with hKs | hKl
      · have h₁ : (keyReports (stringKeyErr obj) THREAD_STRING_KEYS).count
            (missingMsg K) = 1 :=
          count_keyReports_missing_of_absent THREAD_STRING_KEYS
            thread_string_keys_nodup (fun k hk => mem_all_of_thread_string hk)
            hKall hKs habs
            (fun k hk t ht => (missing_ne_mismatch_all K hKall k hk t ht).2.2)
        have h₂ : (keyReports (listKeyErr obj) THREAD_LIST_KEYS).count
            (missingMsg K) = 0 :=
          count_keyReports_zero_of_other THREAD_LIST_KEYS
            (fun k hk => mem_all_of_thread_list hk) hKall
            (string_list_keys_disjoint K hKs)
            (fun k hk t ht => (missing_ne_mismatch_all K hKall k hk t ht).2.1)
        rw [h₁, h₂]
      · have h₁ : (keyReports (stringKeyErr obj) THREAD_STRING_KEYS).count
            (missingMsg K) = 0 :=
          count_keyReports_zero_of_other THREAD_STRING_KEYS
            (fun k hk => mem_all_of_thread_string hk) hKall
            (list_string_keys_disjoint K hKl)
            (fun k hk t ht => (missing_ne_mismatch_all K hKall k hk t ht).2.2)
        have h₂ : (keyReports (listKeyErr obj) THREAD_LIST_KEYS).count
            (missingMsg K) = 1 :=
          count_keyReports_missing_of_absent THREAD_LIST_KEYS
            thread_list_keys_nodup (fun k hk => mem_all_of_thread_list hk)
            hKall hKl habs
            (fun k hk t ht => (missing_ne_mismatch_all K hKall k hk t ht).2.1)
        rw [h₁, h₂]
    · intro v
      have htv := typeName_mem v
      rw [mainErrors_thread hm, validate_thread_eq]
      refine ⟨not_mem_append_of ?_ ?_, not_mem_append_of ?_ ?_,
        not_mem_append_of ?_ ?_⟩
      · refine not_mem_keyReports_fieldErr _ _ ?_ ?_
        · intro k hk hn h
          exact (missing_ne_mismatch_all k (mem_all_of_thread_string hk) K
            hKall (typeName v) htv).1 h.symm
        · intro k hk w hw hc h
          exact (mismatch_inj hKall (mem_all_of_thread_string hk) htv
            (typeName_mem w)).2.2.2.2.1 h
      · refine not_mem_keyReports_fieldErr _ _ ?_ ?_
        · intro k hk hn h
          exact (missing_ne_mismatch_all k (mem_all_of_thread_list hk) K
            hKall (typeName v) htv).1 h.symm
        · intro k hk w hw hc h
          exact (mismatch_inj hKall (mem_all_of_thread_list hk) htv
            (typeName_mem w)).2.2.2.1 h
      · refine not_mem_keyReports_fieldErr _ _ ?_ ?_
        · intro k hk hn h
          exact (missing_ne_mismatch_all k (mem_all_of_thread_string hk) K
            hKall (typeName v) htv).2.1 h.symm
        · intro k hk w hw hc h
          exact (mismatch_inj hKall (mem_all_of_thread_string hk) htv
            (typeName_mem w)).2.2.2.2.2 h
      · refine not_mem_keyReports_fieldErr _ _ ?_ ?_
        · intro k hk hn h
          exact (missing_ne_mismatch_all k (mem_all_of_thread_list hk) K
            hKall (typeName v) htv).2.1 h.symm
        · intro k hk w hw hc h
          have hKk := (mismatch_inj hKall (mem_all_of_thread_list hk) htv
            (typeName_mem w)).2.1 h
          rw [← hKk, habs] at hw
          exact Option.noConfusion hw
      · refine not_mem_keyReports_fieldErr _ _ ?_ ?_
        · intro k hk hn h
          exact (missing_ne_mismatch_all k (mem_all_of_thread_string hk) K
            hKall (typeName v) htv).2.2 h.symm
        · intro k hk w hw hc h
          have hKk := (mismatch_inj hKall (mem_all_of_thread_string hk) htv
            (typeName_mem w)).2.2.1 h
          rw [← hKk, habs] at hw
          exact Option.noConfusion hw
      · refine not_mem_keyReports_fieldErr _ _ ?_ ?_
        · intro k hk hn h
          exact (missing_ne_mismatch_all k (mem_all_of_thread_list hk) K
            hKall (typeName v) htv).2.2 h.symm
        · intro k hk w hw hc h
          exact (mismatch_inj (mem_all_of_thread_list hk) hKall
            (typeName_mem w) htv).2.2.2.2.2 h.symm

theorem C6_witness :
    (mainErrors exGlobalStrDoc).count (missingMsg "multi_llm_roles") = 1 :=
  (C6_absent_key_single_missing exGlobalStrDoc "multi_llm_roles"
    (by decide) rfl).1

/-- The kind the schema expects of required key K in a mode, negated on a
value: global keys and thread Group B keys must be lists, thread Group A
keys must be strings. -/
def wrongKind (mode K : String) (v : JVal) : Bool :=
  if mode = "global" then !(isList v)
  else if K ∈ THREAD_STRING_KEYS then !(isStr v) else !(isList v)

/-- The type-mismatch message the validator of a mode produces for
required key K and actual type name t. -/
def mismatchEntryFor (mode K t : String) : String :=
  if mode = "global" then listArrayMsg K t
  else if K ∈ THREAD_STRING_KEYS then strMsg K t else listMsg K t

/-- C7: if a required key K of the detected schema is present but of the
wrong kind, the report carries exactly one type-mismatch entry naming K
and the actual type, and no missing-key entry for K. -/
theorem C7_wrong_type_single_mismatch (obj : Doc) (K : String) (v : JVal)
    (hK : K ∈ requiredKeys (detect_mode obj).1)
    (hv : lookupKey obj K = some v)
    (hw : wrongKind (detect_mode obj).1 K v = true) :
    (mainErrors obj).count
        (mismatchEntryFor (detect_mode obj).1 K (typeName v)) = 1 ∧
      missingMsg K ∉ mainErrors obj := by
  have htv := typeName_mem v
  rcases detect_mode_cases obj with hm | hm
  · rw [hm, requiredKeys_global] at hK
    rw [hm] at hw ⊢
    have hKall := mem_all_of_global hK
    have hnl : isList v = false := by
      rw [wrongKind, if_pos rfl] at hw
      simpa using hw
    have hme : mismatchEntryFor "global" K (typeName v) =
        listArrayMsg K (typeName v) := by
      rw [mismatchEntryFor, if_pos rfl]
    rw [hme]
    constructor
    · rw [mainErrors_global hm, validate_global_eq]
      exact count_keyReports_mismatch_one GLOBAL_REQUIRED_KEYS
        global_keys_nodup (fun k hk => mem_all_of_global hk) hK hv hnl
        (fun k hk t ht h => (mismatch_inj hKall hk htv ht).1 h)
        (fun k hk h =>
          (missing_ne_mismatch_all k hk K hKall (typeName v) htv).1 h.symm)
    · rw [mainErrors_global hm, validate_global_eq]
      refine not_mem_keyReports_fieldErr _ _ ?_ ?_
      · intro k hk hn h
        have hKk := missingMsg_inj_all K hKall k (mem_all_of_global hk) h
        rw [← hKk, hv] at hn
        exact Option.noConfusion hn
      · intro k hk w hw₂ hc h
        exact (missing_ne_mismatch_all K hKall k (mem_all_of_global hk)
          (typeName w) (typeName_mem w)).1 h
  · rw [hm, requiredKeys_thread] at hK
    rw [hm] at hw ⊢
    have hKall := mem_all_of_thread hK
    rw [thread_keys_split] at hK
    have hmiss : missingMsg K ∉ mainErrors obj := by
      rw [mainErrors_thread hm, validate_thread_eq]
      refine not_mem_append_of ?_ ?_
      · refine not_mem_keyReports_fieldErr _ _ ?_ ?_
        · intro k hk hn h
          have hKk := missingMsg_inj_all K hKall k
            (mem_all_of_thread_string hk) h
          rw [← hKk, hv] at hn
          exact Option.noConfusion hn
        · intro k hk w hw₂ hc h
          exact (missing_ne_mismatch_all K hKall k
            (mem_all_of_thread_string hk) (typeName w) (typeName_mem w)).2.2 h
      · refine not_mem_keyReports_fieldErr _ _ ?_ ?_
        · intro k hk hn h
          have hKk := missingMsg_inj_all K hKall k
            (mem_all_of_thread_list hk) h
          rw [← hKk, hv] at hn
          exact Option.noConfusion hn
        · intro k hk w hw₂ hc h
          exact (missing_ne_mismatch_all K hKall k
            (mem_all_of_thread_list hk) (typeName w) (typeName_mem w)).2.1 h
    rcases List.mem_append.mp hK with hKs | hKl
    · have hns : isStr v = false := by
        rw [wrongKind, if_neg (by decide), if_pos hKs] at hw
        simpa using hw
      have hme : mismatchEntryFor "thread" K (typeName v) =
          strMsg K (typeName v) := by
        rw [mismatchEntryFor, if_neg (by decide), if_pos hKs]
      rw [hme]
      refine ⟨?_, hmiss⟩
      rw [mainErrors_thread hm, validate_thread_eq, List.count_append]
      have h₁ : (keyReports (stringKeyErr obj) THREAD_STRING_KEYS).count
          (strMsg K (typeName v)) = 1 :=
        count_keyReports_mismatch_one THREAD_STRING_KEYS
          thread_string_keys_nodup (fun k hk => mem_all_of_thread_string hk)
          hKs hv hns
          (fun k hk t ht h => (mismatch_inj hKall hk htv ht).2.2.1 h)
          (fun k hk h => (missing_ne_mismatch_all k hk K hKall
            (typeName v) htv).2.2 h.symm)
      have h₂ : (keyReports (listKeyErr obj) THREAD_LIST_KEYS).count
          (strMsg K (typeName v)) = 0 :=
        count_keyReports_mismatch_zero THREAD_LIST_KEYS
          (strMsg K (typeName v)) (fun k hk => mem_all_of_thread_list hk)
          (fun k hk h => (missing_ne_mismatch_all k hk K hKall
            (typeName v) htv).2.2 h.symm)
          (fun k hk t ht h =>
            (mismatch_inj hk hKall ht htv).2.2.2.2.2 h.symm)
      rw [h₁, h₂]
    · have hnl : isList v = false := by
        rw [wrongKind, if_neg (by decide),
          if_neg (list_string_keys_disjoint K hKl)] at hw
        simpa using hw
      have hme : mismatchEntryFor "thread" K (typeName v) =
          listMsg K (typeName v) := by
        rw [mismatchEntryFor, if_neg (by decide),
          if_neg (list_string_keys_disjoint K hKl)]
      rw [hme]
      refine ⟨?_, hmiss⟩
      rw [mainErrors_thread hm, validate_thread_eq, List.count_append]
      have h₁ : (keyReports (stringKeyErr obj) THREAD_STRING_KEYS).count
          (listMsg K (typeName v)) = 0 :=
        count_keyReports_mismatch_zero THREAD_STRING_KEYS
          (listMsg K (typeName v)) (fun k hk => mem_all_of_thread_string hk)
          (fun k hk h => (missing_ne_mismatch_all k hk K hKall
            (typeName v) htv).2.1 h.symm)
          (fun k hk t ht h => (mismatch_inj hKall hk htv ht).2.2.2.2.2 h)
      have h₂ : (keyReports (listKeyErr obj) THREAD_LIST_KEYS).count
          (listMsg K (typeName v)) = 1 :=
        count_keyReports_mismatch_one THREAD_LIST_KEYS
          thread_list_keys_nodup (fun k hk => mem_all_of_thread_list hk)
          hKl hv hnl
          (fun k hk t ht h => (mismatch_inj hKall hk htv ht).2.1 h)
          (fun k hk h => (missing_ne_mismatch_all k hk K hKall
            (typeName v) htv).2.1 h.symm)
      rw [h₁, h₂]

theorem C7_witness :
    (mainErrors exGlobalStrDoc).count
        (mismatchEntryFor (detect_mode exGlobalStrDoc).1 "failure_patterns"
          (typeName (JVal.jstr "oops"))) = 1 ∧
      missingMsg "failure_patterns" ∉ mainErrors exGlobalStrDoc :=
  C7_wrong_type_single_mismatch exGlobalStrDoc "failure_patterns"
    (JVal.jstr "oops") (by decide) rfl (by decide)

end GrokValidate
